import Mathlib

/-!
Verification of the streaming chat client in
`src/frontend/src/services/api.js`.

The development shallowly embeds the parts of the client that the
specification talks about:

* the Server-Sent-Events processing loop `processStream`
  (api.js lines 150-202): chunk decoding, newline splitting, the
  `data: ` line filter, JSON parsing of the event payload, and the
  `switch (data.type)` callback dispatch;
* the connect-phase retry logic of `createStreamConnection`
  (api.js lines 123-242) together with `shouldRetry` (lines 247-254);
* the request payload construction of `sendMessage` (lines 46-57) and
  `streamMessage` (lines 110-118).

Chunks are modelled as the decoded text the `TextDecoder` produces, so a
byte-level split of the response body corresponds to a split of the
payload string (`decode(value, \x7bstream: true\x7d)` re-joins a
multi-byte character whose bytes land in different chunks, but never
re-joins a line).
-/

/-! ## Event payloads and callback invocations -/

/-- The fields of a parsed SSE event payload that the client reads.
`JSON.parse` yields a JavaScript object; a field that is absent is
`undefined`, modelled as `none`.  Fields other than `type`, `message`
and `session_id` are never read by the client and are not retained. -/
structure EventData where
  type : Option String
  message : Option String
  session_id : Option String
deriving DecidableEq, Repr

/-- The payload with no recognised fields (`\x7b\x7d` or an object of
unrelated keys). -/
def EventData.empty : EventData :=
  { type := none, message := none, session_id := none }

/-- One observable callback invocation made by the stream-processing
loop.  `onComplete none` is the no-payload call made on end-of-data
(`done`); `onComplete (some d)` is the call made for a
`type: "complete"` event.  `onError` records the `message` of the
`Error` object passed to the callback. -/
inductive CB where
  | onProgress (payload : EventData)
  | onData (payload : EventData)
  | onComplete (payload : Option EventData)
  | onError (message : String)
deriving DecidableEq, Repr

/-! ## Model of the platform JSON parser

`processStream` calls the platform's `JSON.parse` on the text after the
`data: ` marker.  The wire protocol only ever carries a flat JSON object
whose values are strings, numbers or the literals `true`/`false`/`null`,
so the parser is modelled on exactly that fragment: a top-level object
of double-quoted string keys; string values are retained for the keys
the client reads, other values are validated and discarded.  Inputs
outside the fragment (nested objects, arrays, top-level non-objects)
are rejected; the client ignores a line whose payload the model rejects
exactly as it ignores a line whose payload `JSON.parse` turns into a
value without a recognised `type`. -/

/-- Resolve a single-character JSON escape (`\n`, `\t`, `\r`, `\b`,
`\f`, `\"`, `\\`, `\/`).  `\uXXXX` escapes are not interpreted; the
protocol does not use them. -/
def escChar (c : Char) : Char :=
  if c = 'n' then '\n'
  else if c = 't' then '\t'
  else if c = 'r' then '\r'
  else if c = 'b' then '\x08'
  else if c = 'f' then '\x0c'
  else c

/-- Scan the body of a double-quoted JSON string (the opening quote
already consumed); returns the content and the text after the closing
quote, or `none` if the string is unterminated. -/
def scanStr : List Char → Option (List Char × List Char)
  | [] => none
  | '"' :: rest => some ([], rest)
  | '\\' :: e :: rest =>
    match scanStr rest with
    | none => none
    | some (s, r) => some (escChar e :: s, r)
  | c :: rest =>
    match scanStr rest with
    | none => none
    | some (s, r) => some (c :: s, r)

/-- Skip blanks and tabs between JSON tokens. -/
def skipSpaces : List Char → List Char
  | ' ' :: rest => skipSpaces rest
  | '\t' :: rest => skipSpaces rest
  | cs => cs

/-- Scan an unquoted value token: everything up to the next comma,
closing brace or blank. -/
def scanLit : List Char → List Char × List Char
  | [] => ([], [])
  | c :: rest =>
    if c = ',' ∨ c = '\x7d' ∨ c = ' ' then ([], c :: rest)
    else
      let (tok, r) := scanLit rest
      (c :: tok, r)

/-- An unquoted value token is valid when it is a number or one of the
literals `true`, `false`, `null`. -/
def validLit (tok : List Char) : Bool :=
  tok == "true".toList || tok == "false".toList || tok == "null".toList ||
    (!(tok == []) && tok.all fun c =>
      c.isDigit || c == '-' || c == '+' || c == '.' || c == 'e' || c == 'E')

/-- Record a string member of the payload object; keys the client never
reads are dropped, a repeated key overwrites the earlier value exactly
as in `JSON.parse`. -/
def setField (d : EventData) (key value : String) : EventData :=
  if key = "type" then { d with type := some value }
  else if key = "message" then { d with message := some value }
  else if key = "session_id" then { d with session_id := some value }
  else d

/-- Parse the members of a JSON object (the opening brace already
consumed, at least one member present); returns the accumulated payload
and the text after the closing brace.  The fuel argument bounds the
number of members and is initialised to the input length, which one
member at least one character long can never exhaust. -/
def parseMembers : Nat → List Char → EventData → Option (EventData × List Char)
  | 0, _, _ => none
  | fuel + 1, cs, acc =>
    match skipSpaces cs with
    | '"' :: afterQuote =>
      match scanStr afterQuote with
      | none => none
      | some (key, afterKey) =>
        match skipSpaces afterKey with
        | ':' :: afterColon =>
          match skipSpaces afterColon with
          | '"' :: afterValQuote =>
            match scanStr afterValQuote with
            | none => none
            | some (value, afterVal) =>
              let acc2 := setField acc (String.mk key) (String.mk value)
              match skipSpaces afterVal with
              | ',' :: more => parseMembers fuel more acc2
              | '\x7d' :: more => some (acc2, more)
              | _ => none
          | other =>
            let (tok, afterTok) := scanLit other
            if validLit tok then
              match skipSpaces afterTok with
              | ',' :: more => parseMembers fuel more acc
              | '\x7d' :: more => some (acc, more)
              | _ => none
            else none
        | _ => none
    | _ => none

/-- Model of `JSON.parse(line.slice(6))` on the protocol fragment:
parses a flat JSON object into the fields the client reads.  Returns
`none` when the text is not a complete object of the fragment. -/
def parseEvent (cs : List Char) : Option EventData :=
  match skipSpaces cs with
  | '\x7b' :: afterBrace =>
    match skipSpaces afterBrace with
    | '\x7d' :: tail =>
      if skipSpaces tail = [] then some EventData.empty else none
    | body =>
      match parseMembers (body.length + 1) body EventData.empty with
      | some (d, tail) => if skipSpaces tail = [] then some d else none
      | none => none
  | _ => none

/-! ## The stream-processing loop (api.js lines 150-202) -/

/-- The `switch (data.type)` dispatch (lines 168-184): the callbacks it
fires and whether it makes `processStream` return (`complete` and
`error` do, via `return`; `progress`, `data` and the logged-and-ignored
default fall through to the next line). -/
def dispatchEvent (data : EventData) : List CB × Bool :=
  match data.type with
  | some t =>
    if t = "progress" then ([CB.onProgress data], false)
    else if t = "data" then ([CB.onData data], false)
    else if t = "complete" then ([CB.onComplete (some data)], true)
    else if t = "error" then ([CB.onError (data.message.getD "")], true)
    else ([], false)
  | none => ([], false)

/-- Processing of one candidate line (lines 163-188): only a line that
starts with the six characters `data: ` is considered
(`line.startsWith('data: ')`); its remainder (`line.slice(6)`) is
parsed as JSON, a parse failure is logged and skipped
(`catch (parseError)`), and a parsed payload is dispatched. -/
def processLine (line : String) : List CB × Bool :=
  if line.toList.take 6 = "data: ".toList then
    match parseEvent (line.toList.drop 6) with
    | some data => dispatchEvent data
    | none => ([], false)
  else ([], false)

/-- The `for (const line of lines)` loop: concatenates the callbacks of
each line in order and stops at the first line whose dispatch returns
out of `processStream`. -/
def runLines : List String → List CB × Bool
  | [] => ([], false)
  | line :: rest =>
    if (processLine line).2 then ((processLine line).1, true)
    else ((processLine line).1 ++ (runLines rest).1, (runLines rest).2)

/-- Model of the JavaScript `chunk.split('\n')` (line 161): split on
every newline, keeping empty pieces, so a chunk ending in a newline
yields a final empty line and the empty chunk yields one empty line. -/
def splitNlAux : List Char → List Char → List (List Char)
  | [], acc => [acc.reverse]
  | c :: rest, acc =>
    if c = '\n' then acc.reverse :: splitNlAux rest []
    else splitNlAux rest (c :: acc)

/-- `chunk.split('\n')` on a decoded chunk. -/
def splitNl (s : String) : List String :=
  (splitNlAux s.toList []).map String.mk

/-- The read loop of `processStream` (lines 152-190) over the decoded
chunks the reader yields, without a cancellation in flight: each chunk
is split on newlines and its lines processed in order; a `complete` or
`error` dispatch returns out of the loop; when the reader reports
`done` the loop fires `onComplete()` with no payload and breaks.  Each
chunk is split independently — the loop keeps no buffer carrying a
partial trailing line into the next chunk. -/
def processStream : List String → List CB
  | [] => [CB.onComplete none]
  | chunk :: rest =>
    if (runLines (splitNl chunk)).2 then (runLines (splitNl chunk)).1
    else (runLines (splitNl chunk)).1 ++ processStream rest

/-- A terminal callback: `onComplete` or `onError`. -/
def isTerminal : CB → Bool
  | CB.onComplete _ => true
  | CB.onError _ => true
  | _ => false

/-! ## Connect-phase retry logic (api.js lines 123-242, 247-254) -/

/-- Outcome of one `fetch` of the streaming endpoint: the promise
resolves with an ok response (streaming begins), resolves with a
non-ok status (line 133 then throws), or rejects (network failure). -/
inductive ConnectResult where
  | ok
  | httpError (status : Nat)
  | networkError
deriving DecidableEq, Repr

/-- The JavaScript error value reaching the `catch` of
`createStreamConnection`, with the fields `shouldRetry` reads:
`response` (an axios-style response object, carrying the status) and
`code`.  A plain `Error` has neither, so both are `none`. -/
structure JSError where
  message : String
  response : Option Nat
  code : Option String
deriving DecidableEq, Repr

/-- The error the connect phase throws for each failing outcome.  A
non-ok status throws `new Error` with an interpolated message
(line 134): a plain `Error`, carrying no `response` and no `code`
field.  A rejected `fetch` likewise carries neither field. -/
def connectError : ConnectResult → JSError
  | ConnectResult.httpError status =>
    { message := s!"HTTP error! status: {status}", response := none, code := none }
  | ConnectResult.networkError =>
    { message := "Failed to fetch", response := none, code := none }
  | ConnectResult.ok =>
    { message := "", response := none, code := none }

/-- `shouldRetry` (lines 247-254): retry when there is no `response`
field, when `code` is `ECONNABORTED`, or when the response status is at
least 500. -/
def shouldRetry (error : JSError) : Bool :=
  error.response == none ||
    error.code == some "ECONNABORTED" ||
    (match error.response with
     | some status => decide (500 ≤ status)
     | none => false)

/-- One observable step of the connect phase: a `fetch` call with its
`retryCount`, an `onProgress` callback (the synthetic retry notice of
lines 216-220 carries `progress: 0`), entry into streaming, or an
`onError` callback. -/
inductive TraceEv where
  | fetchAttempt (retryCount : Nat)
  | onProgress (progress : Nat) (message : String)
  | streamStart
  | onError (message : String)
deriving DecidableEq, Repr

/-- `const maxRetries = 3` (line 209). -/
def maxRetries : Nat := 3

/-- The backoff delay of line 210:
`Math.min(1000 * Math.pow(2, retryCount), 10000)`. -/
def retryDelay (retryCount : Nat) : Nat :=
  min (1000 * 2 ^ retryCount) 10000

/-- The connect phase of `createStreamConnection` (lines 123-242) run
against a queue of `fetch` outcomes, as the trace of its observable
steps.  `retryCount` is the recursion argument of the source.

`cancelRequested` records whether `cancel()` is invoked on the handle
the caller holds while a retry delay is pending.  The handle returned
from the retry branch is
`\x7b cancel: () => \x7b console.log('Retry cancelled') \x7d \x7d`
(lines 227-231): its `cancel` sets no flag, and the `setTimeout`
callback (lines 223-225) re-invokes `createStreamConnection`
unconditionally, consulting no cancellation flag — so the recursion
below, like the source, never reads `cancelRequested`.

On a failure the `catch` block runs: when attempts remain and
`shouldRetry` holds it emits the retry notice and recurses with
`retryCount + 1`; otherwise it fires `onError` once, with the
exhaustion message when `retryCount >= maxRetries` and the error's own
message otherwise. -/
def createStreamConnection
    (outcomes : List ConnectResult) (retryCount : Nat)
    (cancelRequested : Bool) : List TraceEv :=
  match outcomes with
  | [] => []
  | outcome :: rest =>
    TraceEv.fetchAttempt retryCount ::
      match outcome with
      | ConnectResult.ok => [TraceEv.streamStart]
      | failure =>
        let error := connectError failure
        if retryCount < maxRetries ∧ shouldRetry error then
          let d := retryDelay retryCount
          let secs := (d + 999) / 1000
          TraceEv.onProgress 0 s!"Connection failed, retrying in {secs}s..." ::
            createStreamConnection rest (retryCount + 1) cancelRequested
        else
          [TraceEv.onError
            (if maxRetries ≤ retryCount then
              s!"Connection failed after {maxRetries} attempts. Please check your network connection."
            else error.message)]

/-- A `fetch` step of a connect-phase trace. -/
def isFetch : TraceEv → Bool
  | TraceEv.fetchAttempt _ => true
  | _ => false

/-- An `onError` callback step of a connect-phase trace. -/
def isOnError : TraceEv → Bool
  | TraceEv.onError _ => true
  | _ => false

/-- An `onProgress` callback step of a connect-phase trace. -/
def isRetryNotice : TraceEv → Bool
  | TraceEv.onProgress _ _ => true
  | _ => false

/-! ## Request payload construction (api.js lines 46-57 and 110-118) -/

/-- The JSON body posted to the chat endpoints: the `message` field and
the optional `session_id` field (`none` when the field is absent from
the object, never a null field). -/
structure ChatPayload where
  message : String
  session_id : Option String
deriving DecidableEq, Repr

/-- JavaScript truthiness of a `string | null | undefined` value:
`null` and `undefined` (both `none`) and the empty string are falsy. -/
def strTruthy : Option String → Bool
  | none => false
  | some s => !(s == "")

/-- The payload built by `sendMessage` (lines 48-55): start from
`\x7b message: message.trim() \x7d` and add `session_id` only when
`sessionId` is truthy (`if (sessionId)`). -/
def sendMessagePayload (message : String) (sessionId : Option String) : ChatPayload :=
  let payload : ChatPayload := { message := message.trim, session_id := none }
  if strTruthy sessionId then { payload with session_id := sessionId }
  else payload

/-- The payload built by `streamMessage` (lines 111-114): the object
spread `...(sessionId && \x7b session_id: sessionId \x7d)` adds the
field exactly when `sessionId` is truthy. -/
def streamMessagePayload (message : String) (sessionId : Option String) : ChatPayload :=
  { message := message.trim,
    session_id := if strTruthy sessionId then sessionId else none }

/-! ## Helper lemmas -/

/-- Every line produces either no callback and no return, one
non-terminal callback and no return, or one terminal callback together
with a return out of the loop. -/
theorem processLine_cases (line : String) :
    processLine line = ([], false) ∨
    (∃ d, processLine line = ([CB.onProgress d], false)) ∨
    (∃ d, processLine line = ([CB.onData d], false)) ∨
    (∃ d, processLine line = ([CB.onComplete (some d)], true)) ∨
    (∃ m, processLine line = ([CB.onError m], true)) := by
  rw [processLine]
  split
  · cases h : parseEvent (line.toList.drop 6) with
    | none => simp
    | some d =>
      obtain ⟨ty, msg, sid⟩ := d
      cases ty with
      | none => simp [dispatchEvent]
      | some t =>
        by_cases h1 : t = "progress"
        · simp [dispatchEvent, h1]
        · by_cases h2 : t = "data"
          · simp [dispatchEvent, h1, h2]
          · by_cases h3 : t = "complete"
            · simp [dispatchEvent, h1, h2, h3]
            · by_cases h4 : t = "error"
              · simp [dispatchEvent, h1, h2, h3, h4]
              · simp [dispatchEvent, h1, h2, h3, h4]
  · simp

/-- Shape of the callbacks fired by the line loop: when it returns out
of the loop the last callback is terminal and the earlier ones are not;
when it falls through no terminal callback has fired. -/
theorem runLines_shape (lines : List String) :
    ((runLines lines).2 = true →
      ∃ pre t, (runLines lines).1 = pre ++ [t] ∧ isTerminal t = true ∧
        ∀ c ∈ pre, isTerminal c = false) ∧
    ((runLines lines).2 = false →
      ∀ c ∈ (runLines lines).1, isTerminal c = false) := by
  induction lines with
  | nil => simp [runLines]
  | cons line rest ih =>
    rcases processLine_cases line with h | ⟨d, h⟩ | ⟨d, h⟩ | ⟨d, h⟩ | ⟨m, h⟩
    · constructor
      · intro h2
        rw [runLines, h] at h2 ⊢
        simp only [List.nil_append] at h2 ⊢
        exact ih.1 h2
      · intro h2
        rw [runLines, h] at h2 ⊢
        simp only [List.nil_append] at h2 ⊢
        exact ih.2 h2
    · constructor
      · intro h2
        rw [runLines, h] at h2 ⊢
        simp only at h2 ⊢
        obtain ⟨pre, t, e1, e2, e3⟩ := ih.1 h2
        refine ⟨CB.onProgress d :: pre, t, ?_, e2, ?_⟩
        · simp [e1]
        · intro c hc
          rcases List.mem_cons.mp hc with rfl | hc
          · rfl
          · exact e3 c hc
      · intro h2
        rw [runLines, h] at h2 ⊢
        simp only at h2 ⊢
        intro c hc
        rcases List.mem_cons.mp hc with rfl | hc
        · rfl
        · exact ih.2 h2 c hc
    · constructor
      · intro h2
        rw [runLines, h] at h2 ⊢
        simp only at h2 ⊢
        obtain ⟨pre, t, e1, e2, e3⟩ := ih.1 h2
        refine ⟨CB.onData d :: pre, t, ?_, e2, ?_⟩
        · simp [e1]
        · intro c hc
          rcases List.mem_cons.mp hc with rfl | hc
          · rfl
          · exact e3 c hc
      · intro h2
        rw [runLines, h] at h2 ⊢
        simp only at h2 ⊢
        intro c hc
        rcases List.mem_cons.mp hc with rfl | hc
        · rfl
        · exact ih.2 h2 c hc
    · constructor
      · intro h2
        rw [runLines, h]
        exact ⟨[], CB.onComplete (some d), rfl, rfl, by simp⟩
      · intro h2
        rw [runLines, h] at h2
        simp at h2
    · constructor
      · intro h2
        rw [runLines, h]
        exact ⟨[], CB.onError m, rfl, rfl, by simp⟩
      · intro h2
        rw [runLines, h] at h2
        simp at h2

/-! ## Claim theorems -/

/-- C1: the stream-processing loop is NOT invariant under re-chunking of
the payload.  Each chunk is split on newlines independently and no
partial trailing line is carried into the next chunk, so splitting the
encoded payload in the middle of a line changes the callback sequence:
delivered whole, the payload fires `onData` and then the end-of-data
`onComplete`; split mid-line, the event is lost and only the end-of-data
`onComplete` fires.  This refutes the claimed split-invariance at the
concrete input below, whose two chunks concatenate to the unsplit
payload. -/
theorem chunk_split_changes_callbacks :
    "data: \x7b\"type\":\"da" ++ "ta\",\"message\":\"hi\"\x7d\n" =
      "data: \x7b\"type\":\"data\",\"message\":\"hi\"\x7d\n" ∧
    processStream ["data: \x7b\"type\":\"data\",\"message\":\"hi\"\x7d\n"] =
      [CB.onData { type := some "data", message := some "hi", session_id := none },
       CB.onComplete none] ∧
    processStream ["data: \x7b\"type\":\"da", "ta\",\"message\":\"hi\"\x7d\n"] =
      [CB.onComplete none] ∧
    processStream ["data: \x7b\"type\":\"da", "ta\",\"message\":\"hi\"\x7d\n"] ≠
      processStream ["data: \x7b\"type\":\"data\",\"message\":\"hi\"\x7d\n"] :=
  ⟨rfl, by decide, by decide, by decide⟩

/-- C2: cancelling while a retry delay is pending does NOT prevent the
scheduled retry from connecting.  The handle returned from the retry
branch has a `cancel` that only logs and sets no flag, and the
`setTimeout` callback re-invokes the connection attempt without
consulting any cancellation flag: after a retryable first failure with
`cancel()` invoked during the pending delay, the trace still contains
the second `fetch` (`fetchAttempt 1`), and the trace is independent of
whether cancellation was requested. -/
theorem cancel_during_retry_delay_ignored :
    createStreamConnection [ConnectResult.networkError, ConnectResult.ok] 0 true =
      [TraceEv.fetchAttempt 0,
       TraceEv.onProgress 0 "Connection failed, retrying in 1s...",
       TraceEv.fetchAttempt 1, TraceEv.streamStart] ∧
    TraceEv.fetchAttempt 1 ∈
      createStreamConnection [ConnectResult.networkError, ConnectResult.ok] 0 true ∧
    (∀ c : Bool,
      createStreamConnection [ConnectResult.networkError, ConnectResult.ok] 0 c =
        createStreamConnection [ConnectResult.networkError, ConnectResult.ok] 0 true) :=
  ⟨by decide, by decide, fun c => by cases c <;> rfl⟩

/-- C3: a connect-phase 4xx failure is NOT surfaced immediately — it is
retried.  The non-ok branch throws a plain `Error` that carries no
`response` field, so `shouldRetry` takes its no-response branch and
returns `true` for a 404; the connection is then re-attempted up to the
ceiling and the caller finally receives the generic exhaustion message
instead of the 404 detail. -/
theorem status_4xx_gets_retried :
    shouldRetry (connectError (ConnectResult.httpError 404)) = true ∧
    TraceEv.fetchAttempt 1 ∈
      createStreamConnection
        [ConnectResult.httpError 404, ConnectResult.httpError 404,
         ConnectResult.httpError 404, ConnectResult.httpError 404,
         ConnectResult.httpError 404] 0 false ∧
    ((createStreamConnection
        [ConnectResult.httpError 404, ConnectResult.httpError 404,
         ConnectResult.httpError 404, ConnectResult.httpError 404,
         ConnectResult.httpError 404] 0 false).filter isFetch).length = 4 ∧
    (createStreamConnection
        [ConnectResult.httpError 404, ConnectResult.httpError 404,
         ConnectResult.httpError 404, ConnectResult.httpError 404,
         ConnectResult.httpError 404] 0 false).filter isOnError =
      [TraceEv.onError
        "Connection failed after 3 attempts. Please check your network connection."] :=
  ⟨by decide, by decide, by decide, by decide⟩

/-- C4: callbacks DO fire after cancellation.  With `cancel()` invoked
on the caller's handle while the first retry delay is pending
(`cancelRequested = true`), the remaining retries still run:
the steps after the cancellation point (everything from the second
`fetch` on, i.e. from position 2 of the trace) include two `onProgress`
retry notices and the final `onError` — so the cancellation did not
stop the callbacks. -/
theorem callbacks_fire_after_cancel :
    createStreamConnection
        [ConnectResult.networkError, ConnectResult.networkError,
         ConnectResult.networkError, ConnectResult.networkError,
         ConnectResult.networkError] 0 true =
      [TraceEv.fetchAttempt 0,
       TraceEv.onProgress 0 "Connection failed, retrying in 1s...",
       TraceEv.fetchAttempt 1,
       TraceEv.onProgress 0 "Connection failed, retrying in 2s...",
       TraceEv.fetchAttempt 2,
       TraceEv.onProgress 0 "Connection failed, retrying in 4s...",
       TraceEv.fetchAttempt 3,
       TraceEv.onError
         "Connection failed after 3 attempts. Please check your network connection."] ∧
    ((createStreamConnection
        [ConnectResult.networkError, ConnectResult.networkError,
         ConnectResult.networkError, ConnectResult.networkError,
         ConnectResult.networkError] 0 true).drop 2).filter
        (fun e => isOnError e || isRetryNotice e) =
      [TraceEv.onProgress 0 "Connection failed, retrying in 2s...",
       TraceEv.onProgress 0 "Connection failed, retrying in 4s...",
       TraceEv.onError
         "Connection failed after 3 attempts. Please check your network connection."] :=
  ⟨by decide, by decide⟩

/-- C5: four consecutive connect-phase 5xx failures exhaust the
3-retry ceiling: exactly four `fetch` calls are made (no fifth, even
with a fifth outcome available), `onError` fires exactly once, and its
message states the number of attempts exhausted. -/
theorem retry_ceiling_single_error :
    createStreamConnection
        [ConnectResult.httpError 500, ConnectResult.httpError 500,
         ConnectResult.httpError 500, ConnectResult.httpError 500,
         ConnectResult.httpError 500] 0 false =
      [TraceEv.fetchAttempt 0,
       TraceEv.onProgress 0 "Connection failed, retrying in 1s...",
       TraceEv.fetchAttempt 1,
       TraceEv.onProgress 0 "Connection failed, retrying in 2s...",
       TraceEv.fetchAttempt 2,
       TraceEv.onProgress 0 "Connection failed, retrying in 4s...",
       TraceEv.fetchAttempt 3,
       TraceEv.onError
         "Connection failed after 3 attempts. Please check your network connection."] ∧
    ((createStreamConnection
        [ConnectResult.httpError 500, ConnectResult.httpError 500,
         ConnectResult.httpError 500, ConnectResult.httpError 500,
         ConnectResult.httpError 500] 0 false).filter isOnError).length = 1 ∧
    ((createStreamConnection
        [ConnectResult.httpError 500, ConnectResult.httpError 500,
         ConnectResult.httpError 500, ConnectResult.httpError 500,
         ConnectResult.httpError 500] 0 false).filter isFetch).length = 4 :=
  ⟨by decide, by decide, by decide⟩

/-- C6: the backoff delay before retry `a` is
`min(1000 * 2 ^ a, 10000)` milliseconds, and for the connect-phase
outcome sequence [5xx, 5xx, success] exactly two retry notices fire,
with delays 1000ms then 2000ms, before streaming begins. -/
theorem backoff_schedule_and_retry_notices :
    (∀ a : Nat, retryDelay a = min (1000 * 2 ^ a) 10000) ∧
    retryDelay 0 = 1000 ∧ retryDelay 1 = 2000 ∧
    createStreamConnection
        [ConnectResult.httpError 500, ConnectResult.httpError 500,
         ConnectResult.ok] 0 false =
      [TraceEv.fetchAttempt 0,
       TraceEv.onProgress 0 "Connection failed, retrying in 1s...",
       TraceEv.fetchAttempt 1,
       TraceEv.onProgress 0 "Connection failed, retrying in 2s...",
       TraceEv.fetchAttempt 2, TraceEv.streamStart] ∧
    ((createStreamConnection
        [ConnectResult.httpError 500, ConnectResult.httpError 500,
         ConnectResult.ok] 0 false).filter isRetryNotice).length = 2 :=
  ⟨fun a => rfl, by decide, by decide, by decide, by decide⟩

/-- C7: the `type` discriminator of a parsed payload selects the
callback — `progress` fires `onProgress` and the loop continues, `data`
fires `onData` and the loop continues, `complete` fires `onComplete`
with the payload and the read loop terminates, `error` fires `onError`
with the payload's message and the read loop terminates, and any other
`type` (or an absent one) fires nothing and the loop continues; a
terminating dispatch stops the line loop and a non-terminating one
passes control to the remaining lines; the spec's two-line example
yields exactly `onData` (message "hi", session "abc") then `onComplete`
and nothing else. -/
theorem dispatch_selects_callback :
    ∀ (d : EventData) (line : String) (rest : List String),
      (d.type = some "progress" → dispatchEvent d = ([CB.onProgress d], false)) ∧
      (d.type = some "data" → dispatchEvent d = ([CB.onData d], false)) ∧
      (d.type = some "complete" → dispatchEvent d = ([CB.onComplete (some d)], true)) ∧
      (d.type = some "error" → dispatchEvent d = ([CB.onError (d.message.getD "")], true)) ∧
      (∀ t, d.type = some t → t ≠ "progress" → t ≠ "data" → t ≠ "complete" →
        t ≠ "error" → dispatchEvent d = ([], false)) ∧
      (d.type = none → dispatchEvent d = ([], false)) ∧
      ((processLine line).2 = true → runLines (line :: rest) = ((processLine line).1, true)) ∧
      ((processLine line).2 = false →
        runLines (line :: rest) =
          ((processLine line).1 ++ (runLines rest).1, (runLines rest).2)) ∧
      processStream
          ["data: \x7b\"type\":\"data\",\"message\":\"hi\",\"session_id\":\"abc\"\x7d\ndata: \x7b\"type\":\"complete\"\x7d\n"] =
        [CB.onData { type := some "data", message := some "hi", session_id := some "abc" },
         CB.onComplete
           (some { type := some "complete", message := none, session_id := none })] := by
  intro d line rest
  refine ⟨?_, ?_, ?_, ?_, ?_, ?_, ?_, ?_, by decide⟩
  · intro h; simp [dispatchEvent, h]
  · intro h; simp [dispatchEvent, h]
  · intro h; simp [dispatchEvent, h]
  · intro h; simp [dispatchEvent, h]
  · intro t h h1 h2 h3 h4; simp [dispatchEvent, h, h1, h2, h3, h4]
  · intro h; simp [dispatchEvent, h]
  · intro h; rw [runLines, if_pos h]
  · intro h; rw [runLines, if_neg (by simp [h])]

/-- Witness for C7 at concrete payloads: a `data` payload dispatches to
`onData` without terminating the loop, and a `complete` payload
dispatches to `onComplete` and terminates it. -/
theorem dispatch_selects_callback_witness :
    dispatchEvent { type := some "data", message := some "hi", session_id := some "abc" } =
      ([CB.onData { type := some "data", message := some "hi", session_id := some "abc" }],
        false) ∧
    dispatchEvent { type := some "complete", message := none, session_id := none } =
      ([CB.onComplete (some { type := some "complete", message := none, session_id := none })],
        true) :=
  ⟨(dispatch_selects_callback
      { type := some "data", message := some "hi", session_id := some "abc" } "" []).2.1 rfl,
   (dispatch_selects_callback
      { type := some "complete", message := none, session_id := none } "" []).2.2.1 rfl⟩

/-- C8: a line that carries the `data: ` marker but whose remainder
does not parse as JSON is skipped without any callback: the line loop
produces exactly the same callbacks, and the same termination
behaviour, as if the line were absent — so no `onError` fires, the
loop is not terminated, and every subsequent valid event is still
delivered. -/
theorem malformed_line_skipped :
    ∀ (pre post : List String) (line : String),
      line.toList.take 6 = "data: ".toList →
      parseEvent (line.toList.drop 6) = none →
      runLines (pre ++ line :: post) = runLines (pre ++ post) := by
  intro pre post line h1 h2
  induction pre with
  | nil =>
    simp only [List.nil_append]
    rw [runLines, processLine, if_pos h1, h2]
    simp
  | cons p pre ih =>
    simp only [List.cons_append]
    rw [runLines, runLines, ih]

/-- Witness for C8: the malformed line `data: \x7bnot json` between a
valid `data` event and a valid `complete` event changes nothing about
the callbacks the line loop fires. -/
theorem malformed_line_skipped_witness :
    runLines
        ["data: \x7b\"type\":\"data\",\"message\":\"hi\"\x7d",
         "data: \x7bnot json",
         "data: \x7b\"type\":\"complete\"\x7d"] =
      runLines
        ["data: \x7b\"type\":\"data\",\"message\":\"hi\"\x7d",
         "data: \x7b\"type\":\"complete\"\x7d"] :=
  malformed_line_skipped
    ["data: \x7b\"type\":\"data\",\"message\":\"hi\"\x7d"]
    ["data: \x7b\"type\":\"complete\"\x7d"]
    "data: \x7bnot json" (by decide) (by decide)

/-- C9: every complete run of the stream-processing loop fires exactly
one terminal callback (`onComplete` or `onError`), it is the last
callback fired, and every callback before it is non-terminal — hence
terminal callbacks fire at most once in total and always last,
regardless of how many chunks follow a terminal event. -/
theorem terminal_callback_once_and_last :
    ∀ chunks : List String,
      ∃ pre t, processStream chunks = pre ++ [t] ∧ isTerminal t = true ∧
        (∀ c ∈ pre, isTerminal c = false) ∧
        (processStream chunks).filter isTerminal = [t] := by
  intro chunks
  have main : ∃ pre t, processStream chunks = pre ++ [t] ∧ isTerminal t = true ∧
      ∀ c ∈ pre, isTerminal c = false := by
    induction chunks with
    | nil => exact ⟨[], CB.onComplete none, rfl, rfl, by simp⟩
    | cons chunk rest ih =>
      cases hr : (runLines (splitNl chunk)).2 with
      | true =>
        obtain ⟨pre, t, e1, e2, e3⟩ := (runLines_shape (splitNl chunk)).1 hr
        exact ⟨pre, t, by rw [processStream, if_pos hr, e1], e2, e3⟩
      | false =>
        obtain ⟨pre, t, e1, e2, e3⟩ := ih
        refine ⟨(runLines (splitNl chunk)).1 ++ pre, t, ?_, e2, ?_⟩
        · rw [processStream, if_neg (by simp [hr]), e1, List.append_assoc]
        · intro c hc
          rcases List.mem_append.mp hc with hc | hc
          · exact (runLines_shape (splitNl chunk)).2 hr c hc
          · exact e3 c hc
  obtain ⟨pre, t, e1, e2, e3⟩ := main
  refine ⟨pre, t, e1, e2, e3, ?_⟩
  rw [e1, List.filter_append]
  rw [List.filter_eq_nil_iff.mpr (by intro c hc; simp [e3 c hc])]
  simp [e2]

/-- Witness for C9: the run over one empty chunk fires exactly the
end-of-data `onComplete`, terminal and last. -/
theorem terminal_callback_once_and_last_witness :
    ∃ pre t, processStream [""] = pre ++ [t] ∧ isTerminal t = true ∧
      (∀ c ∈ pre, isTerminal c = false) ∧
      (processStream [""]).filter isTerminal = [t] :=
  terminal_callback_once_and_last [""]

/-- C10: both payload builders trim the message and omit the
`session_id` field entirely for every falsy session value (`null`,
`undefined` and the empty string are the falsy values of
`string | null | undefined`), and include it exactly when the session
value is truthy. -/
theorem payload_session_id_presence :
    ∀ message : String,
      sendMessagePayload message none =
        { message := message.trim, session_id := none } ∧
      sendMessagePayload message (some "") =
        { message := message.trim, session_id := none } ∧
      streamMessagePayload message none =
        { message := message.trim, session_id := none } ∧
      streamMessagePayload message (some "") =
        { message := message.trim, session_id := none } ∧
      ∀ s : String, s ≠ "" →
        sendMessagePayload message (some s) =
          { message := message.trim, session_id := some s } ∧
        streamMessagePayload message (some s) =
          { message := message.trim, session_id := some s } := by
  intro message
  refine ⟨rfl, by simp [sendMessagePayload, strTruthy], rfl,
    by simp [streamMessagePayload, strTruthy], ?_⟩
  intro s hs
  constructor <;> simp [sendMessagePayload, streamMessagePayload, strTruthy, hs]

/-- Witness for C10 at a concrete truthy session id: both builders
include `session_id` and trim the message. -/
theorem payload_session_id_presence_witness :
    sendMessagePayload "hi" (some "abc") =
      { message := "hi".trim, session_id := some "abc" } ∧
    streamMessagePayload "hi" (some "abc") =
      { message := "hi".trim, session_id := some "abc" } :=
  (payload_session_id_presence "hi").2.2.2.2 "abc" (by decide)
